import Mathlib

/-!
Shallow embedding of the c23-syntax-diagrams repository: the diagram
description trees built by the grammar-rule factories, the rule registry,
the `callOrNew` calling-convention shim, the `mountRule` / `renderRuleList`
rendering pipeline, the section index of `renderAllSections`, and the
`filterNames` query filter of the React shell.  The external railroad
diagram library is abstracted: a diagram description is an immutable tree
(`Node`), and the runtime object the library produces for it is modelled by
its observable capabilities (`DiagObj`).
-/

namespace C23

/-- A diagram description: the immutable tree of diagram primitives built by
the wrapped constructors `Diagram`, `Sequence`, `Choice`, `Optional`,
`OneOrMore`, `ZeroOrMore`, `Terminal`, `NonTerminal`, `Stack`, `Comment`
of the source module.  `choice` keeps the default-index argument; `oneOrMore`
keeps the optional repeat-label argument (used once, with a comment). -/
inductive Node : Type where
  | diagram : List Node → Node
  | sequence : List Node → Node
  | choice : Nat → List Node → Node
  | optional : Node → Node
  | oneOrMore : Node → Option Node → Node
  | zeroOrMore : Node → Node
  | terminal : String → Node
  | nonterminal : String → Node
  | stack : List Node → Node
  | comment : String → Node

/-- `T(s)` of the source: a terminal leaf. -/
def T (s : String) : Node := Node.terminal s

/-- `NT(s)` of the source: a non-terminal reference leaf. -/
def NT (s : String) : Node := Node.nonterminal s

/-- A JavaScript exception, modelled by whether it is a `TypeError` and by
its message string. -/
structure JSError : Type where
  isTypeError : Bool
  message : String
deriving DecidableEq, Repr

/-- Substring test, modelling both the regular expression
`/without 'new'/.test(msg)` (whose pattern is a literal) and JavaScript
`String.prototype.includes`. -/
def strContains (s pat : String) : Bool :=
  s.data.tails.any (fun t => pat.data.isPrefixOf t)

/-- The literal pattern of the regex in `callOrNew`. -/
def withoutNewPat : String := "without \x27new\x27"

/-- A value returned by a library invocation (opaque to the shim). -/
inductive JSValue : Type where
  | str : String → JSValue
  | domNode : JSValue
  | other : JSValue
deriving DecidableEq, Repr

/-- The observable behaviour of one exported primitive `Ctor` at one fixed
argument list: what `Ctor(...args)` does and what `new Ctor(...args)` does.
`Except.error e` models a throw of `e`. -/
structure CtorBehavior : Type where
  call : Except JSError JSValue
  construct : Except JSError JSValue
deriving Repr

/-- `callOrNew(Ctor, ...args)` of the source: try the plain call; if it
throws a `TypeError` whose message matches `/without 'new'/`, retry with
`new`; any other exception propagates unchanged. -/
def callOrNew (c : CtorBehavior) : Except JSError JSValue :=
  match c.call with
  | Except.ok v => Except.ok v
  | Except.error e =>
    if e.isTypeError && strContains e.message withoutNewPat then
      c.construct
    else
      Except.error e

/-- The runtime diagram object the external library yields for a
description, observed through the three capabilities `mountRule` probes:
`toSVG`, `toString`, `addTo`.  `none` models the property not being a
function in the loaded build; `some (Except.error e)` models the call
throwing `e`. -/
structure DiagObj : Type where
  toSVG : Option (Except JSError JSValue)
  toString : Option (Except JSError String)
  addTo : Option (Except JSError Unit)

/-- What ends up inside the `svgwrap` div of a mounted rule block. -/
inductive SvgOutcome : Type where
  | innerHTML : String → SvgOutcome
  | appendedNode : SvgOutcome
  | text : String → SvgOutcome
  | attached : SvgOutcome
deriving DecidableEq, Repr

/-- The try/catch fallback chain of `mountRule` (source lines 56-77):
if `toSVG` is a function it is called and its result examined (string →
innerHTML, DOM node → appendChild, anything else → a fixed notice); else
if `toString` is a function its result is injected as markup; else if
`addTo` is a function the diagram attaches itself; else a fixed
unsupported-build notice.  Any throw inside the chosen branch is caught
and replaced by a `Render error:` text placeholder. -/
def renderSvg (d : DiagObj) : SvgOutcome :=
  match d.toSVG with
  | some (Except.ok (JSValue.str s)) => SvgOutcome.innerHTML s
  | some (Except.ok JSValue.domNode) => SvgOutcome.appendedNode
  | some (Except.ok JSValue.other) =>
      SvgOutcome.text "toSVG() returned an unexpected value."
  | some (Except.error e) => SvgOutcome.text ("Render error: " ++ e.message)
  | none =>
    match d.toString with
    | some (Except.ok s) => SvgOutcome.innerHTML s
    | some (Except.error e) => SvgOutcome.text ("Render error: " ++ e.message)
    | none =>
      match d.addTo with
      | some (Except.ok _) => SvgOutcome.attached
      | some (Except.error e) =>
          SvgOutcome.text ("Render error: " ++ e.message)
      | none =>
          SvgOutcome.text
            "Diagram object does not support toSVG/toString/addTo in this build."

/-- Modelled from the spec (for the refinement comparison of the
mount/render claim): the fallback strategies tried in order with the FIRST
SUCCESS winning — a strategy that is present but throws is skipped in
favour of the next one, and only if all fail does the error placeholder
appear. -/
def renderSvgSpec (d : DiagObj) : SvgOutcome :=
  match d.toSVG with
  | some (Except.ok (JSValue.str s)) => SvgOutcome.innerHTML s
  | some (Except.ok JSValue.domNode) => SvgOutcome.appendedNode
  | _ =>
    match d.toString with
    | some (Except.ok s) => SvgOutcome.innerHTML s
    | _ =>
      match d.addTo with
      | some (Except.ok _) => SvgOutcome.attached
      | _ => SvgOutcome.text "render failed"

/-- One mounted rule block: the `div.rule` that `mountRule` appends to the
container — its id, its `h3` heading, the diagram description that was
mounted, and what ended up in its `svgwrap`. -/
structure RuleBlock : Type where
  id : String
  heading : String
  desc : Node
  svg : SvgOutcome

/-- `mountRule(container, name, diagram)` of the source: appends to the
container one block with id `rule-<name>`, an `h3` holding the name, and
the outcome of the fallback chain on the library object for the
description.  `lib` abstracts the external library's conversion of a
description into a runtime object. -/
def mountRule (lib : Node → DiagObj) (container : List RuleBlock)
    (name : String) (d : Node) : List RuleBlock :=
  container ++ [⟨"rule-" ++ name, name, d, renderSvg (lib d)⟩]

/-- `lookup` on the rule registry: JavaScript `Map.get`.  The registry is
modelled as the association list of `rules.set` calls in source order;
`Map.set` overwrites, and all registered names are distinct, so positional
lookup agrees with the map. -/
def rulesGet (rs : List (String × Node)) (name : String) : Option Node :=
  match rs with
  | [] => none
  | p :: rest => if p.1 = name then some p.2 else rulesGet rest name

/-- `renderRuleList(sectionRoot, rules, names)` of the source: for each
name in order, look up its factory; mount the factory's description, or a
`No factory defined for <name>` comment diagram when the lookup misses. -/
def renderRuleList (lib : Node → DiagObj) (rs : List (String × Node))
    (container : List RuleBlock) : List String → List RuleBlock
  | [] => container
  | name :: rest =>
    match rulesGet rs name with
    | none =>
        renderRuleList lib rs
          (mountRule lib container name
            (Node.diagram [Node.comment ("No factory defined for " ++ name)]))
          rest
    | some d => renderRuleList lib rs (mountRule lib container name d) rest

/-- Wrapped `Diagram` primitive (variadic in the source; list-valued here). -/
def Diagram (xs : List Node) : Node := Node.diagram xs

/-- Wrapped `Sequence` primitive. -/
def Sequence (xs : List Node) : Node := Node.sequence xs

/-- Wrapped `Choice` primitive; the first argument is the default index. -/
def Choice (d : Nat) (xs : List Node) : Node := Node.choice d xs

/-- Wrapped `Optional` primitive. -/
def Optional (x : Node) : Node := Node.optional x

/-- Wrapped `OneOrMore` primitive, one-argument form. -/
def OneOrMore (x : Node) : Node := Node.oneOrMore x none

/-- Wrapped `OneOrMore` primitive with a repeat label (used once, with a
comment). -/
def OneOrMoreC (x c : Node) : Node := Node.oneOrMore x (some c)

/-- Wrapped `ZeroOrMore` primitive. -/
def ZeroOrMore (x : Node) : Node := Node.zeroOrMore x

/-- Wrapped `Comment` primitive. -/
def Comment (s : String) : Node := Node.comment s

/-- The precedence-chain helper of the source:
`chain(base, ops) = Sequence(NT(base), ZeroOrMore(Sequence(Choice(0, ...ops.map(T)), NT(base))))`
— the operand followed by zero or more (operator, operand) pairs. -/
def chain (base : String) (ops : List String) : Node :=
  Sequence [NT base,
    ZeroOrMore (Sequence [Choice 0 (ops.map T), NT base])]

/-- The rule registry: every `rules.set(name, factory)` call of the source
in order, each factory replaced by the description tree it returns (the
factories are zero-argument and pure, so each one is its tree). -/
def rules : List (String × Node) := [
  ("token", Diagram [
    Choice 0 [
      NT "keyword",
      NT "identifier",
      NT "constant",
      NT "string-literal",
      NT "punctuator"]]),
  ("preprocessing-token", Diagram [
    Choice 0 [
      NT "header-name",
      NT "identifier",
      NT "pp-number",
      NT "character-constant",
      NT "string-literal",
      NT "punctuator",
      NT "universal-character-name",
      NT "non-white-space-character"]]),
  ("identifier", Diagram [
    Sequence [
      NT "identifier-start",
      ZeroOrMore (NT "identifier-continue")]]),
  ("universal-character-name", Diagram [
    Choice 0 [
      Sequence [T "\\u", NT "hex-quad"],
      Sequence [T "\\U", NT "hex-quad", NT "hex-quad"]]]),
  ("constant", Diagram [
    Choice 0 [
      NT "integer-constant",
      NT "floating-constant",
      NT "enumeration-constant",
      NT "character-constant",
      NT "predefined-constant"]]),
  ("primary-expression", Diagram [
    Choice 0 [
      NT "identifier",
      NT "constant",
      NT "string-literal",
      Sequence [T "(", NT "expression", T ")"],
      NT "generic-selection"]]),
  ("generic-selection", Diagram [
    Sequence [
      T "_Generic",
      T "(",
      NT "assignment-expression",
      T ",",
      NT "generic-assoc-list",
      T ")"]]),
  ("generic-assoc-list", Diagram [
    Sequence [
      NT "generic-association",
      ZeroOrMore (Sequence [T ",", NT "generic-association"])]]),
  ("generic-association", Diagram [
    Choice 0 [
      Sequence [NT "type-name", T ":", NT "assignment-expression"],
      Sequence [T "default", T ":", NT "assignment-expression"]]]),
  ("argument-expression-list", Diagram [
    Sequence [
      NT "assignment-expression",
      ZeroOrMore (Sequence [T ",", NT "assignment-expression"])]]),
  ("compound-literal", Diagram [
    Sequence [
      T "(",
      Optional (NT "storage-class-specifiers"),
      NT "type-name",
      T ")",
      NT "braced-initializer"]]),
  ("postfix-expression", Diagram [
    Sequence [
      Choice 0 [NT "primary-expression", NT "compound-literal"],
      ZeroOrMore (Choice 0 [
        Sequence [T "[", NT "expression", T "]"],
        Sequence [T "(", Optional (NT "argument-expression-list"), T ")"],
        Sequence [T ".", NT "identifier"],
        Sequence [T "->", NT "identifier"],
        T "++",
        T "--"])]]),
  ("unary-operator", Diagram [
    Choice 0 [T "&", T "*", T "+", T "-", T "~", T "!"]]),
  ("cast-expression", Diagram [
    Sequence [
      ZeroOrMore (Sequence [T "(", NT "type-name", T ")"]),
      NT "unary-expression"]]),
  ("unary-expression", Diagram [
    Choice 0 [
      Sequence [
        ZeroOrMore (Choice 0 [T "++", T "--", T "sizeof"]),
        Choice 0 [
          NT "postfix-expression",
          Sequence [NT "unary-operator", NT "cast-expression"]]],
      Sequence [T "sizeof", T "(", NT "type-name", T ")"],
      Sequence [T "alignof", T "(", NT "type-name", T ")"]]]),
  ("multiplicative-expression", Diagram [chain "cast-expression" ["*", "/", "%"]]),
  ("additive-expression", Diagram [chain "multiplicative-expression" ["+", "-"]]),
  ("shift-expression", Diagram [chain "additive-expression" ["<<", ">>"]]),
  ("relational-expression", Diagram [chain "shift-expression" ["<", ">", "<=", ">="]]),
  ("equality-expression", Diagram [chain "relational-expression" ["==", "!="]]),
  ("AND-expression", Diagram [chain "equality-expression" ["&"]]),
  ("exclusive-OR-expression", Diagram [chain "AND-expression" ["^"]]),
  ("inclusive-OR-expression", Diagram [chain "exclusive-OR-expression" ["|"]]),
  ("logical-AND-expression", Diagram [chain "inclusive-OR-expression" ["&&"]]),
  ("logical-OR-expression", Diagram [chain "logical-AND-expression" ["||"]]),
  ("conditional-expression", Diagram [
    Sequence [
      NT "logical-OR-expression",
      Optional (Sequence [T "?", NT "expression", T ":", NT "conditional-expression"])]]),
  ("assignment-operator", Diagram [
    Choice 0 [
      T "=", T "*=", T "/=", T "%=", T "+=", T "-=",
      T "<<=", T ">>=", T "&=", T "^=", T "|="]]),
  ("assignment-expression", Diagram [
    Choice 0 [
      NT "conditional-expression",
      Sequence [NT "unary-expression", NT "assignment-operator", NT "assignment-expression"]]]),
  ("expression", Diagram [
    Sequence [
      NT "assignment-expression",
      ZeroOrMore (Sequence [T ",", NT "assignment-expression"])]]),
  ("constant-expression", Diagram [NT "conditional-expression"]),
  ("declaration", Diagram [
    Choice 0 [
      Sequence [NT "declaration-specifiers", Optional (NT "init-declarator-list"), T ";"],
      Sequence [NT "attribute-specifier-sequence", NT "declaration-specifiers", NT "init-declarator-list", T ";"],
      NT "static_assert-declaration",
      NT "attribute-declaration"]]),
  ("declaration-specifiers", Diagram [
    OneOrMoreC
      (Sequence [NT "declaration-specifier", Optional (NT "attribute-specifier-sequence")])
      (Comment "one or more")]),
  ("declaration-specifier", Diagram [
    Choice 0 [
      NT "storage-class-specifier",
      NT "type-specifier-qualifier",
      NT "function-specifier"]]),
  ("init-declarator-list", Diagram [
    Sequence [
      NT "init-declarator",
      ZeroOrMore (Sequence [T ",", NT "init-declarator"])]]),
  ("init-declarator", Diagram [
    Choice 0 [
      NT "declarator",
      Sequence [NT "declarator", T "=", NT "initializer"]]]),
  ("storage-class-specifiers", Diagram [OneOrMore (NT "storage-class-specifier")]),
  ("storage-class-specifier", Diagram [
    Choice 0 [T "auto", T "constexpr", T "extern", T "register", T "static", T "thread_local", T "typedef"]]),
  ("type-specifier-qualifier", Diagram [
    Choice 0 [NT "type-specifier", NT "type-qualifier", NT "alignment-specifier"]]),
  ("type-specifier", Diagram [
    Choice 0 [
      T "void", T "char", T "short", T "int", T "long",
      T "float", T "double", T "signed", T "unsigned",
      Sequence [T "_BitInt", T "(", NT "constant-expression", T ")"],
      T "bool", T "_Complex",
      T "_Decimal32", T "_Decimal64", T "_Decimal128",
      NT "atomic-type-specifier",
      NT "struct-or-union-specifier",
      NT "enum-specifier",
      NT "typedef-name",
      NT "typeof-specifier"]]),
  ("struct-or-union-specifier", Diagram [
    Choice 0 [
      Sequence [NT "struct-or-union", Optional (NT "attribute-specifier-sequence"), Optional (NT "identifier"),
        T "\x7b", NT "member-declaration-list", T "\x7d"],
      Sequence [NT "struct-or-union", Optional (NT "attribute-specifier-sequence"), NT "identifier"]]]),
  ("struct-or-union", Diagram [Choice 0 [T "struct", T "union"]]),
  ("member-declaration-list", Diagram [OneOrMore (NT "member-declaration")]),
  ("member-declaration", Diagram [
    Choice 0 [
      Sequence [Optional (NT "attribute-specifier-sequence"), NT "specifier-qualifier-list",
        Optional (NT "member-declarator-list"), T ";"],
      NT "static_assert-declaration"]]),
  ("specifier-qualifier-list", Diagram [
    OneOrMore (Sequence [NT "type-specifier-qualifier", Optional (NT "attribute-specifier-sequence")])]),
  ("member-declarator-list", Diagram [
    Sequence [
      NT "member-declarator",
      ZeroOrMore (Sequence [T ",", NT "member-declarator"])]]),
  ("member-declarator", Diagram [
    Choice 0 [
      NT "declarator",
      Sequence [Optional (NT "declarator"), T ":", NT "constant-expression"]]]),
  ("enum-specifier", Diagram [
    Choice 0 [
      Sequence [T "enum", Optional (NT "attribute-specifier-sequence"), Optional (NT "identifier"),
        Optional (NT "enum-type-specifier"), T "\x7b", NT "enumerator-list", T "\x7d"],
      Sequence [T "enum", Optional (NT "attribute-specifier-sequence"), Optional (NT "identifier"),
        Optional (NT "enum-type-specifier"), T "\x7b", NT "enumerator-list", T ",", T "\x7d"],
      Sequence [T "enum", NT "identifier", Optional (NT "enum-type-specifier")]]]),
  ("enumerator-list", Diagram [
    Sequence [NT "enumerator", ZeroOrMore (Sequence [T ",", NT "enumerator"])]]),
  ("enumerator", Diagram [
    Choice 0 [
      Sequence [NT "enumeration-constant", Optional (NT "attribute-specifier-sequence")],
      Sequence [NT "enumeration-constant", Optional (NT "attribute-specifier-sequence"), T "=", NT "constant-expression"]]]),
  ("enum-type-specifier", Diagram [Sequence [T ":", NT "specifier-qualifier-list"]]),
  ("atomic-type-specifier", Diagram [
    Sequence [T "_Atomic", T "(", NT "type-name", T ")"]]),
  ("typeof-specifier", Diagram [
    Choice 0 [
      Sequence [T "typeof", T "(", NT "typeof-specifier-argument", T ")"],
      Sequence [T "typeof_unqual", T "(", NT "typeof-specifier-argument", T ")"]]]),
  ("typeof-specifier-argument", Diagram [
    Choice 0 [NT "expression", NT "type-name"]]),
  ("type-qualifier", Diagram [
    Choice 0 [T "const", T "restrict", T "volatile", T "_Atomic"]]),
  ("type-qualifier-list", Diagram [OneOrMore (NT "type-qualifier")]),
  ("function-specifier", Diagram [Choice 0 [T "inline", T "_Noreturn"]]),
  ("alignment-specifier", Diagram [
    Choice 0 [
      Sequence [T "alignas", T "(", NT "type-name", T ")"],
      Sequence [T "alignas", T "(", NT "constant-expression", T ")"]]]),
  ("declarator", Diagram [
    Sequence [Optional (NT "pointer"), NT "direct-declarator"]]),
  ("pointer", Diagram [
    OneOrMore
      (Sequence [T "*", Optional (NT "attribute-specifier-sequence"), Optional (NT "type-qualifier-list")])]),
  ("direct-declarator", Diagram [
    Sequence [
      Choice 0 [
        Sequence [NT "identifier", Optional (NT "attribute-specifier-sequence")],
        Sequence [T "(", NT "declarator", T ")"]],
      ZeroOrMore (Choice 0 [
        Sequence [T "[",
          Choice 0 [
            Sequence [Optional (NT "type-qualifier-list"), Optional (NT "assignment-expression")],
            Sequence [T "static", Optional (NT "type-qualifier-list"), NT "assignment-expression"],
            Sequence [NT "type-qualifier-list", T "static", NT "assignment-expression"],
            Sequence [Optional (NT "type-qualifier-list"), T "*"]],
          T "]", Optional (NT "attribute-specifier-sequence")],
        Sequence [T "(", Optional (NT "parameter-type-list"), T ")", Optional (NT "attribute-specifier-sequence")]])]]),
  ("parameter-type-list", Diagram [
    Choice 0 [
      NT "parameter-list",
      Sequence [NT "parameter-list", T ",", T "..."],
      T "..."]]),
  ("parameter-list", Diagram [
    Sequence [
      NT "parameter-declaration",
      ZeroOrMore (Sequence [T ",", NT "parameter-declaration"])]]),
  ("parameter-declaration", Diagram [
    Choice 0 [
      Sequence [Optional (NT "attribute-specifier-sequence"), NT "declaration-specifiers", NT "declarator"],
      Sequence [Optional (NT "attribute-specifier-sequence"), NT "declaration-specifiers", Optional (NT "abstract-declarator")]]]),
  ("type-name", Diagram [
    Sequence [NT "specifier-qualifier-list", Optional (NT "abstract-declarator")]]),
  ("abstract-declarator", Diagram [
    Choice 0 [
      NT "pointer",
      Sequence [Optional (NT "pointer"), NT "direct-abstract-declarator"]]]),
  ("direct-abstract-declarator", Diagram [
    Sequence [
      Choice 0 [
        Sequence [T "(", NT "abstract-declarator", T ")"],
        Comment "or empty base for suffix-only forms"],
      ZeroOrMore (Choice 0 [
        Sequence [T "[",
          Choice 0 [
            Sequence [Optional (NT "type-qualifier-list"), Optional (NT "assignment-expression")],
            Sequence [T "static", Optional (NT "type-qualifier-list"), NT "assignment-expression"],
            Sequence [NT "type-qualifier-list", T "static", NT "assignment-expression"],
            Sequence [T "*"]],
          T "]", Optional (NT "attribute-specifier-sequence")],
        Sequence [T "(", Optional (NT "parameter-type-list"), T ")", Optional (NT "attribute-specifier-sequence")]])]]),
  ("braced-initializer", Diagram [
    Choice 0 [
      Sequence [T "\x7b", T "\x7d"],
      Sequence [T "\x7b", NT "initializer-list", T "\x7d"],
      Sequence [T "\x7b", NT "initializer-list", T ",", T "\x7d"]]]),
  ("initializer", Diagram [
    Choice 0 [NT "assignment-expression", NT "braced-initializer"]]),
  ("initializer-list", Diagram [
    Sequence [
      Optional (NT "designation"),
      NT "initializer",
      ZeroOrMore (Sequence [T ",", Optional (NT "designation"), NT "initializer"])]]),
  ("designation", Diagram [Sequence [NT "designator-list", T "="]]),
  ("designator-list", Diagram [OneOrMore (NT "designator")]),
  ("designator", Diagram [
    Choice 0 [
      Sequence [T "[", NT "constant-expression", T "]"],
      Sequence [T ".", NT "identifier"]]]),
  ("statement", Diagram [
    Choice 0 [NT "labeled-statement", NT "unlabeled-statement"]]),
  ("label", Diagram [
    Choice 0 [
      Sequence [Optional (NT "attribute-specifier-sequence"), NT "identifier", T ":"],
      Sequence [Optional (NT "attribute-specifier-sequence"), T "case", NT "constant-expression", T ":"],
      Sequence [Optional (NT "attribute-specifier-sequence"), T "default", T ":"]]]),
  ("labeled-statement", Diagram [
    Sequence [NT "label", NT "statement"]]),
  ("unlabeled-statement", Diagram [
    Choice 0 [
      NT "expression-statement",
      Sequence [Optional (NT "attribute-specifier-sequence"), NT "primary-block"],
      Sequence [Optional (NT "attribute-specifier-sequence"), NT "jump-statement"]]]),
  ("primary-block", Diagram [
    Choice 0 [NT "compound-statement", NT "selection-statement", NT "iteration-statement"]]),
  ("compound-statement", Diagram [
    Sequence [T "\x7b", Optional (NT "block-item-list"), T "\x7d"]]),
  ("block-item-list", Diagram [OneOrMore (NT "block-item")]),
  ("block-item", Diagram [
    Choice 0 [NT "declaration", NT "unlabeled-statement", NT "label"]]),
  ("expression-statement", Diagram [
    Choice 0 [
      Sequence [Optional (NT "expression"), T ";"],
      Sequence [NT "attribute-specifier-sequence", NT "expression", T ";"]]]),
  ("selection-statement", Diagram [
    Choice 0 [
      Sequence [T "if", T "(", NT "expression", T ")", NT "secondary-block"],
      Sequence [T "if", T "(", NT "expression", T ")", NT "secondary-block", T "else", NT "secondary-block"],
      Sequence [T "switch", T "(", NT "expression", T ")", NT "secondary-block"]]]),
  ("iteration-statement", Diagram [
    Choice 0 [
      Sequence [T "while", T "(", NT "expression", T ")", NT "secondary-block"],
      Sequence [T "do", NT "secondary-block", T "while", T "(", NT "expression", T ")", T ";"],
      Sequence [T "for", T "(", Optional (NT "expression"), T ";", Optional (NT "expression"), T ";", Optional (NT "expression"), T ")", NT "secondary-block"],
      Sequence [T "for", T "(", NT "declaration", Optional (NT "expression"), T ";", Optional (NT "expression"), T ")", NT "secondary-block"]]]),
  ("jump-statement", Diagram [
    Choice 0 [
      Sequence [T "goto", NT "identifier", T ";"],
      Sequence [T "continue", T ";"],
      Sequence [T "break", T ";"],
      Sequence [T "return", Optional (NT "expression"), T ";"]]]),
  ("translation-unit", Diagram [OneOrMore (NT "external-declaration")]),
  ("external-declaration", Diagram [
    Choice 0 [NT "function-definition", NT "declaration"]]),
  ("function-definition", Diagram [
    Sequence [
      Optional (NT "attribute-specifier-sequence"),
      NT "declaration-specifiers",
      NT "declarator",
      NT "function-body"]]),
  ("function-body", Diagram [NT "compound-statement"]),
  ("preprocessing-file", Diagram [Optional (NT "group")]),
  ("group", Diagram [OneOrMore (NT "group-part")]),
  ("group-part", Diagram [
    Choice 0 [
      NT "if-section",
      NT "control-line",
      NT "text-line",
      Sequence [T "#", NT "non-directive"]]]),
  ("if-section", Diagram [
    Sequence [
      NT "if-group",
      Optional (NT "elif-groups"),
      Optional (NT "else-group"),
      NT "endif-line"]]),
  ("if-group", Diagram [
    Choice 0 [
      Sequence [T "#", T "if", NT "constant-expression", NT "new-line", Optional (NT "group")],
      Sequence [T "#", T "ifdef", NT "identifier", NT "new-line", Optional (NT "group")],
      Sequence [T "#", T "ifndef", NT "identifier", NT "new-line", Optional (NT "group")]]]),
  ("elif-groups", Diagram [OneOrMore (NT "elif-group")]),
  ("elif-group", Diagram [
    Choice 0 [
      Sequence [T "#", T "elif", NT "constant-expression", NT "new-line", Optional (NT "group")],
      Sequence [T "#", T "elifdef", NT "identifier", NT "new-line", Optional (NT "group")],
      Sequence [T "#", T "elifndef", NT "identifier", NT "new-line", Optional (NT "group")]]]),
  ("else-group", Diagram [
    Sequence [T "#", T "else", NT "new-line", Optional (NT "group")]]),
  ("endif-line", Diagram [
    Sequence [T "#", T "endif", NT "new-line"]]),
  ("control-line", Diagram [
    Choice 0 [
      Sequence [T "#", T "include", NT "pp-tokens", NT "new-line"],
      Sequence [T "#", T "embed", NT "pp-tokens", NT "new-line"],
      Sequence [T "#", T "define", NT "identifier", NT "replacement-list", NT "new-line"],
      Sequence [T "#", T "undef", NT "identifier", NT "new-line"],
      Sequence [T "#", T "line", NT "pp-tokens", NT "new-line"],
      Sequence [T "#", T "error", Optional (NT "pp-tokens"), NT "new-line"],
      Sequence [T "#", T "warning", Optional (NT "pp-tokens"), NT "new-line"],
      Sequence [T "#", T "pragma", Optional (NT "pp-tokens"), NT "new-line"],
      Sequence [T "#", NT "new-line"]]]),
  ("text-line", Diagram [
    Sequence [Optional (NT "pp-tokens"), NT "new-line"]]),
  ("non-directive", Diagram [
    Sequence [NT "pp-tokens", NT "new-line"]]),
  ("pp-tokens", Diagram [OneOrMore (NT "preprocessing-token")]),
  ("replacement-list", Diagram [Optional (NT "pp-tokens")])]

/-- The order of the six `renderRuleList` calls in `renderAllSections`,
keyed by their `data-section` markers. -/
def sectionOrder : List String :=
  ["lexical", "expressions", "declarations", "statements", "external", "preprocessor"]

/-- The rule-name list `renderAllSections` passes for each section. -/
def sectionRules : String → List String
  | "lexical" => [
      "token",
      "preprocessing-token",
      "identifier",
      "universal-character-name",
      "constant"]
  | "expressions" => [
      "primary-expression",
      "generic-selection",
      "generic-assoc-list",
      "generic-association",
      "postfix-expression",
      "unary-operator",
      "unary-expression",
      "cast-expression",
      "multiplicative-expression",
      "additive-expression",
      "shift-expression",
      "relational-expression",
      "equality-expression",
      "AND-expression",
      "exclusive-OR-expression",
      "inclusive-OR-expression",
      "logical-AND-expression",
      "logical-OR-expression",
      "conditional-expression",
      "assignment-operator",
      "assignment-expression",
      "expression",
      "constant-expression"]
  | "declarations" => [
      "declaration",
      "declaration-specifiers",
      "declaration-specifier",
      "init-declarator-list",
      "init-declarator",
      "storage-class-specifiers",
      "storage-class-specifier",
      "type-specifier-qualifier",
      "type-specifier",
      "struct-or-union-specifier",
      "member-declaration-list",
      "member-declaration",
      "specifier-qualifier-list",
      "enum-specifier",
      "enumerator-list",
      "enumerator",
      "atomic-type-specifier",
      "typeof-specifier",
      "type-qualifier",
      "type-qualifier-list",
      "function-specifier",
      "alignment-specifier",
      "declarator",
      "pointer",
      "direct-declarator",
      "parameter-type-list",
      "parameter-list",
      "parameter-declaration",
      "type-name",
      "abstract-declarator",
      "direct-abstract-declarator",
      "braced-initializer",
      "initializer",
      "initializer-list",
      "designation",
      "designator-list",
      "designator"]
  | "statements" => [
      "statement",
      "label",
      "labeled-statement",
      "unlabeled-statement",
      "compound-statement",
      "block-item-list",
      "block-item",
      "expression-statement",
      "selection-statement",
      "iteration-statement",
      "jump-statement"]
  | "external" => [
      "translation-unit",
      "external-declaration",
      "function-definition",
      "function-body"]
  | "preprocessor" => [
      "preprocessing-file",
      "group",
      "group-part",
      "if-section",
      "if-group",
      "elif-groups",
      "elif-group",
      "else-group",
      "endif-line",
      "control-line",
      "text-line",
      "non-directive",
      "pp-tokens",
      "replacement-list"]
  | _ => []

/-- `renderAllSections(root)` of the source: one `renderRuleList` pass per
section, in section order, each into the container the root exposes for
that section's marker. -/
def renderAllSections (lib : Node → DiagObj) (root : String → List RuleBlock) :
    List (String × List RuleBlock) :=
  sectionOrder.map (fun s => (s, renderRuleList lib rules (root s) (sectionRules s)))

/-- `filterNames` of `App.tsx`: trim and lowercase the query; an empty
query keeps every name, otherwise keep the names whose lowercased form
contains the query as a substring (JavaScript `String.prototype.includes`). -/
def filterNames (query : String) (names : List String) : List String :=
  let q := query.trim.toLower
  if q = "" then names
  else names.filter (fun n => strContains n.toLower q)

/-- A symbol of a sentence described by a diagram: a literal token (from a
`Terminal` box) or a non-terminal occurrence (from a `NonTerminal` box). -/
inductive Sym : Type where
  | t : String → Sym
  | nt : String → Sym
deriving DecidableEq, Repr

/-- The sentences a diagram description accepts (the spec's "accepts"):
terminals and non-terminals contribute one symbol, comments contribute
nothing, sequences / diagrams / stacks concatenate, a choice accepts what
any branch accepts, optional adds the empty sentence, and the repetition
primitives iterate. -/
inductive Matches : Node → List Sym → Prop where
  | term (s : String) : Matches (Node.terminal s) [Sym.t s]
  | nonterm (s : String) : Matches (Node.nonterminal s) [Sym.nt s]
  | comm (s : String) : Matches (Node.comment s) []
  | seq_nil : Matches (Node.sequence []) []
  | seq_cons {x : Node} {xs : List Node} {w₁ w₂ : List Sym} :
      Matches x w₁ → Matches (Node.sequence xs) w₂ →
      Matches (Node.sequence (x :: xs)) (w₁ ++ w₂)
  | choice_mem {d : Nat} {xs : List Node} {x : Node} {w : List Sym} :
      x ∈ xs → Matches x w → Matches (Node.choice d xs) w
  | opt_none (x : Node) : Matches (Node.optional x) []
  | opt_some {x : Node} {w : List Sym} :
      Matches x w → Matches (Node.optional x) w
  | zero_nil (x : Node) : Matches (Node.zeroOrMore x) []
  | zero_cons {x : Node} {w₁ w₂ : List Sym} :
      Matches x w₁ → Matches (Node.zeroOrMore x) w₂ →
      Matches (Node.zeroOrMore x) (w₁ ++ w₂)
  | one {x : Node} {sep : Option Node} {w : List Sym} :
      Matches x w → Matches (Node.oneOrMore x sep) w
  | one_cons {x : Node} {sep : Option Node} {w₁ w₂ : List Sym} :
      Matches x w₁ → Matches (Node.oneOrMore x sep) w₂ →
      Matches (Node.oneOrMore x sep) (w₁ ++ w₂)
  | stack_m {xs : List Node} {w : List Sym} :
      Matches (Node.sequence xs) w → Matches (Node.stack xs) w
  | diag {xs : List Node} {w : List Sym} :
      Matches (Node.sequence xs) w → Matches (Node.diagram xs) w

mutual

/-- All terminal and non-terminal leaves occurring in a description, in
left-to-right order. -/
def leaves : Node → List Sym
  | Node.diagram xs => leavesList xs
  | Node.sequence xs => leavesList xs
  | Node.choice _ xs => leavesList xs
  | Node.optional x => leaves x
  | Node.oneOrMore x sep => leaves x ++ leavesOpt sep
  | Node.zeroOrMore x => leaves x
  | Node.terminal s => [Sym.t s]
  | Node.nonterminal s => [Sym.nt s]
  | Node.stack xs => leavesList xs
  | Node.comment _ => []

/-- Leaves of a list of descriptions. -/
def leavesList : List Node → List Sym
  | [] => []
  | x :: xs => leaves x ++ leavesList xs

/-- Leaves of an optional description. -/
def leavesOpt : Option Node → List Sym
  | none => []
  | some x => leaves x

end

/-- The non-terminal references occurring in a description. -/
def ntRefs (n : Node) : List String :=
  (leaves n).filterMap (fun y => match y with
    | Sym.nt r => some r
    | Sym.t _ => none)

/-- The single block `renderRuleList` mounts for one requested name: the
factory's description when the registry has one, otherwise the
`No factory defined for <name>` comment diagram. -/
def oneBlock (lib : Node → DiagObj) (rs : List (String × Node))
    (name : String) : RuleBlock :=
  match rulesGet rs name with
  | none =>
      ⟨"rule-" ++ name, name,
        Node.diagram [Node.comment ("No factory defined for " ++ name)],
        renderSvg (lib (Node.diagram [Node.comment ("No factory defined for " ++ name)]))⟩
  | some d => ⟨"rule-" ++ name, name, d, renderSvg (lib d)⟩

/-- A diagram object whose `toSVG` is present but throws while its
`toString` is present and succeeds: the probe for the first-success-wins
reading of the fallback chain. -/
def d0 : DiagObj :=
  { toSVG := some (Except.error { isTypeError := false, message := "boom" }),
    toString := some (Except.ok "<svg>x</svg>"),
    addTo := none }

/-- A primitive export behaving like an ES class constructor: the plain
call throws the characteristic `TypeError`, instantiation succeeds. -/
def ctor0 : CtorBehavior :=
  { call := Except.error
      { isTypeError := true,
        message := "Class constructor Diagram cannot be invoked without \x27new\x27" },
    construct := Except.ok JSValue.domNode }

/-! ### Helper lemmas -/

/-- The registered rule names are pairwise distinct, so positional lookup
in the association list agrees with the JavaScript `Map` (where `set`
overwrites and last writer wins). -/
lemma rules_keys_nodup : (rules.map Prod.fst).Nodup := by decide

/-- With distinct keys, lookup of a registered pair's name returns that
pair's tree. -/
lemma rulesGet_of_mem : ∀ {rs : List (String × Node)} {p : String × Node},
    (rs.map Prod.fst).Nodup → p ∈ rs → rulesGet rs p.1 = some p.2 := by
  intro rs
  induction rs with
  | nil => intro p _ hp; cases hp
  | cons q rest ih =>
    intro p hnd hp
    simp only [List.map_cons, List.nodup_cons] at hnd
    rcases List.mem_cons.mp hp with hp | hp
    · subst hp
      simp [rulesGet]
    · have hne : q.1 ≠ p.1 := by
        intro h
        exact hnd.1 (h ▸ List.mem_map_of_mem Prod.fst hp)
      simp [rulesGet, hne, ih hnd.2 hp]

/-- The empty pattern is a substring of every string. -/
lemma strContains_empty (s : String) : strContains s "" = true := by
  unfold strContains
  cases s.data with
  | nil => rfl
  | cons a l => simp [List.tails, List.isPrefixOf]

/-- A leaf of a member of a list is a leaf of the list. -/
lemma mem_leavesList_of_mem {x : Node} {xs : List Node} {y : Sym}
    (hx : x ∈ xs) (hy : y ∈ leaves x) : y ∈ leavesList xs := by
  induction xs with
  | nil => cases hx
  | cons a rest ih =>
    rcases List.mem_cons.mp hx with hx | hx
    · subst hx
      simp [leavesList, hy]
    · simp [leavesList, ih hx]

/-- Every symbol of an accepted sentence is a leaf of the description. -/
lemma matches_leaves {n : Node} {w : List Sym} (h : Matches n w) :
    ∀ {y : Sym}, y ∈ w → y ∈ leaves n := by
  induction h with
  | term s => intro y hy; simpa [leaves] using hy
  | nonterm s => intro y hy; simpa [leaves] using hy
  | comm s => intro y hy; cases hy
  | seq_nil => intro y hy; cases hy
  | seq_cons h1 h2 ih1 ih2 =>
    intro y hy
    rcases List.mem_append.mp hy with hy | hy
    · simp only [leaves, leavesList, List.mem_append]
      exact Or.inl (ih1 hy)
    · have := ih2 hy
      simp only [leaves] at this ⊢
      simp only [leavesList, List.mem_append]
      exact Or.inr this
  | choice_mem hx hm ih =>
    intro y hy
    simp only [leaves]
    exact mem_leavesList_of_mem hx (ih hy)
  | opt_none x => intro y hy; cases hy
  | opt_some h ih => intro y hy; simpa [leaves] using ih hy
  | zero_nil x => intro y hy; cases hy
  | zero_cons h1 h2 ih1 ih2 =>
    intro y hy
    rcases List.mem_append.mp hy with hy | hy
    · simpa [leaves] using ih1 hy
    · simpa [leaves] using ih2 hy
  | one h ih =>
    intro y hy
    simp only [leaves, List.mem_append]
    exact Or.inl (ih hy)
  | one_cons h1 h2 ih1 ih2 =>
    intro y hy
    rcases List.mem_append.mp hy with hy | hy
    · simp only [leaves, List.mem_append]
      exact Or.inl (ih1 hy)
    · simpa [leaves] using ih2 hy
  | stack_m h ih =>
    intro y hy
    have := ih hy
    simp only [leaves] at this ⊢
    exact this
  | diag h ih =>
    intro y hy
    have := ih hy
    simp only [leaves] at this ⊢
    exact this

/-- A name is a non-terminal reference of a description exactly when the
corresponding non-terminal leaf occurs in it. -/
lemma ntRefs_iff {n : Node} {r : String} :
    r ∈ ntRefs n ↔ Sym.nt r ∈ leaves n := by
  unfold ntRefs
  rw [List.mem_filterMap]
  constructor
  · rintro ⟨y, hy, hf⟩
    cases y with
    | t s => simp at hf
    | nt s =>
      simp only [Option.some.injEq] at hf
      exact hf ▸ hy
  · intro hy
    exact ⟨Sym.nt r, hy, rfl⟩

/-- `renderRuleList` appends exactly one block per requested name, in
order, independently of the container's prior contents. -/
lemma renderRuleList_eq (lib : Node → DiagObj) (rs : List (String × Node)) :
    ∀ (names : List String) (c : List RuleBlock),
      renderRuleList lib rs c names = c ++ names.map (oneBlock lib rs) := by
  intro names
  induction names with
  | nil => intro c; simp [renderRuleList]
  | cons n rest ih =>
    intro c
    cases h : rulesGet rs n with
    | none =>
      simp [renderRuleList, h, oneBlock, mountRule, ih]
    | some d =>
      simp [renderRuleList, h, oneBlock, mountRule, ih]

/-- The id of every mounted block is `rule-` prefixed to the name. -/
lemma oneBlock_id (lib : Node → DiagObj) (rs : List (String × Node))
    (n : String) : (oneBlock lib rs n).id = "rule-" ++ n := by
  cases h : rulesGet rs n <;> simp [oneBlock, h]

/-- The heading of every mounted block is the rule name. -/
lemma oneBlock_heading (lib : Node → DiagObj) (rs : List (String × Node))
    (n : String) : (oneBlock lib rs n).heading = n := by
  cases h : rulesGet rs n <;> simp [oneBlock, h]

/-- A sentence accepted by a description is accepted by the one-item
diagram that wraps it. -/
lemma matches_diagram_single {x : Node} {w : List Sym} (h : Matches x w) :
    Matches (Node.diagram [x]) w := by
  have h2 := Matches.seq_cons h Matches.seq_nil
  exact Matches.diag (by simpa using h2)

/-- Conversely, the one-item diagram accepts only what its item accepts. -/
lemma matches_diagram_single_inv {x : Node} {w : List Sym}
    (h : Matches (Node.diagram [x]) w) : Matches x w := by
  cases h with
  | diag h1 =>
    cases h1 with
    | seq_cons h2 h3 =>
      cases h3 with
      | seq_nil => simpa using h2

/-- A chain accepts its bare operand. -/
lemma chain_matches_nil (b : String) (ops : List String) :
    Matches (chain b ops) [Sym.nt b] := by
  have h := Matches.seq_cons (Matches.nonterm b)
    (Matches.seq_cons
      (Matches.zero_nil (Sequence [Choice 0 (ops.map T), NT b]))
      Matches.seq_nil)
  simpa [chain, Sequence, ZeroOrMore, Choice, NT] using h

/-- One (operator, operand) iteration of a chain. -/
lemma chain_step {s : String} {ops : List String} (b : String)
    (hs : s ∈ ops) :
    Matches (Node.sequence [Node.choice 0 (ops.map T), Node.nonterminal b])
      [Sym.t s, Sym.nt b] := by
  have hc : Matches (Node.choice 0 (ops.map T)) [Sym.t s] :=
    Matches.choice_mem (List.mem_map_of_mem T hs) (Matches.term s)
  have h := Matches.seq_cons hc
    (Matches.seq_cons (Matches.nonterm b) Matches.seq_nil)
  simpa using h

/-- A chain accepts operand-operator-operand. -/
lemma chain_matches_one {s : String} {ops : List String} (b : String)
    (hs : s ∈ ops) :
    Matches (chain b ops) [Sym.nt b, Sym.t s, Sym.nt b] := by
  have h2 := Matches.zero_cons (chain_step b hs)
    (Matches.zero_nil (Node.sequence [Node.choice 0 (ops.map T), Node.nonterminal b]))
  have h3 := Matches.seq_cons (Matches.nonterm b)
    (Matches.seq_cons h2 Matches.seq_nil)
  simpa [chain, Sequence, ZeroOrMore, Choice, NT] using h3

/-- A chain accepts two iterations with possibly different operators. -/
lemma chain_matches_two {s₁ s₂ : String} {ops : List String} (b : String)
    (h1 : s₁ ∈ ops) (h2 : s₂ ∈ ops) :
    Matches (chain b ops)
      [Sym.nt b, Sym.t s₁, Sym.nt b, Sym.t s₂, Sym.nt b] := by
  have hz := Matches.zero_cons (chain_step b h1)
    (Matches.zero_cons (chain_step b h2)
      (Matches.zero_nil (Node.sequence [Node.choice 0 (ops.map T), Node.nonterminal b])))
  have h3 := Matches.seq_cons (Matches.nonterm b)
    (Matches.seq_cons hz Matches.seq_nil)
  simpa [chain, Sequence, ZeroOrMore, Choice, NT] using h3

/-- Every sentence a chain accepts starts with its operand symbol. -/
lemma chain_head {b : String} {ops : List String} {w : List Sym}
    (h : Matches (chain b ops) w) : ∃ w', w = Sym.nt b :: w' := by
  simp only [chain, Sequence, ZeroOrMore, Choice, NT] at h
  cases h with
  | seq_cons h1 h2 =>
    cases h1
    exact ⟨_, rfl⟩

/-! ### Claim theorems -/

/-- Claim C5: a rule built via the binary-operator chaining helper with
operand `X` and operator set `ops` is, by construction, the operand
followed by zero or more (operator, operand) pairs — the flat
left-associative shape; it accepts `X`, `X op1 X`, `X op1 X op2 X`, and
never accepts a sentence led by an operator. -/
theorem c5_chain_precedence (X : String) (ops : List String)
    (op1 op2 : String) (h1 : op1 ∈ ops) (h2 : op2 ∈ ops) :
    chain X ops = Node.sequence [Node.nonterminal X,
      Node.zeroOrMore (Node.sequence
        [Node.choice 0 (ops.map Node.terminal), Node.nonterminal X])] ∧
    Matches (chain X ops) [Sym.nt X] ∧
    Matches (chain X ops) [Sym.nt X, Sym.t op1, Sym.nt X] ∧
    Matches (chain X ops) [Sym.nt X, Sym.t op1, Sym.nt X, Sym.t op2, Sym.nt X] ∧
    ∀ (op : String) (w : List Sym), ¬ Matches (chain X ops) (Sym.t op :: w) := by
  refine ⟨rfl, chain_matches_nil X ops, chain_matches_one X h1,
    chain_matches_two X h1 h2, ?_⟩
  intro op w h
  obtain ⟨w', hw⟩ := chain_head h
  cases hw

/-- Claim C5 witness: the chain of `multiplicative-expression` at its
concrete operand and operators. -/
theorem c5_chain_precedence_witness :
    Matches (chain "cast-expression" ["*", "/", "%"])
      [Sym.nt "cast-expression", Sym.t "*", Sym.nt "cast-expression",
        Sym.t "/", Sym.nt "cast-expression"] :=
  (c5_chain_precedence "cast-expression" ["*", "/", "%"] "*" "/"
    (by decide) (by decide)).2.2.2.1

/-- Claim C6: the registered `multiplicative-expression` factory produces
exactly the chain over operand `cast-expression` with operators `*`, `/`,
`%`; every sentence it accepts uses only those three operators and only the
`cast-expression` non-terminal, and each of the three operators is
realized between two operands. -/
theorem c6_multiplicative_expression :
    rulesGet rules "multiplicative-expression" =
      some (Diagram [chain "cast-expression" ["*", "/", "%"]]) ∧
    (∀ w, Matches (Diagram [chain "cast-expression" ["*", "/", "%"]]) w →
      (∀ op, Sym.t op ∈ w → op ∈ ["*", "/", "%"]) ∧
      (∀ r, Sym.nt r ∈ w → r = "cast-expression")) ∧
    (∀ op, op ∈ ["*", "/", "%"] →
      Matches (Diagram [chain "cast-expression" ["*", "/", "%"]])
        [Sym.nt "cast-expression", Sym.t op, Sym.nt "cast-expression"]) := by
  have hleq : leaves (Diagram [chain "cast-expression" ["*", "/", "%"]]) =
      [Sym.nt "cast-expression", Sym.t "*", Sym.t "/", Sym.t "%",
        Sym.nt "cast-expression"] := rfl
  refine ⟨rfl, ?_, ?_⟩
  · intro w h
    constructor
    · intro op hop
      have hl := matches_leaves h hop
      rw [hleq] at hl
      simp only [List.mem_cons, List.not_mem_nil, or_false] at hl
      rcases hl with hl | hl | hl | hl | hl <;> simp_all
    · intro r hr
      have hl := matches_leaves h hr
      rw [hleq] at hl
      simp only [List.mem_cons, List.not_mem_nil, or_false] at hl
      rcases hl with hl | hl | hl | hl | hl <;> simp_all
  · intro op hop
    exact matches_diagram_single (chain_matches_one "cast-expression" hop)

/-- Claim C6 witness: the `*` operator between two `cast-expression`
operands is accepted. -/
theorem c6_multiplicative_expression_witness :
    Matches (Diagram [chain "cast-expression" ["*", "/", "%"]])
      [Sym.nt "cast-expression", Sym.t "*", Sym.nt "cast-expression"] :=
  c6_multiplicative_expression.2.2 "*" (by decide)

/-- Claim C3: rendering the unregistered name `no-such-rule` does not
abort: the pass mounts for it a placeholder block (id `rule-no-such-rule`)
whose description is the comment diagram stating no factory is defined,
then continues and mounts the block of the next requested name. -/
theorem c3_missing_rule (lib : Node → DiagObj) (c : List RuleBlock) :
    ∃ b1 b2 : RuleBlock,
      renderRuleList lib rules c ["no-such-rule", "token"] = c ++ [b1, b2] ∧
      b1.id = "rule-no-such-rule" ∧
      b1.heading = "no-such-rule" ∧
      b1.desc = Node.diagram [Node.comment "No factory defined for no-such-rule"] ∧
      b2.id = "rule-token" ∧
      b2.heading = "token" := by
  have hns : rulesGet rules "no-such-rule" = none := rfl
  refine ⟨oneBlock lib rules "no-such-rule", oneBlock lib rules "token",
    ?_, ?_, ?_, ?_, ?_, ?_⟩
  · simpa using renderRuleList_eq lib rules ["no-such-rule", "token"] c
  · rw [oneBlock_id]; decide
  · rw [oneBlock_heading]
  · simp [oneBlock, hns]
  · rw [oneBlock_id]; decide
  · rw [oneBlock_heading]

/-- Claim C7: every rule name in every section list passed by
`renderAllSections` has a registered factory — no orphaned section
entries. -/
theorem c7_no_orphan_sections :
    ∀ s ∈ sectionOrder, ∀ n ∈ sectionRules s,
      (rulesGet rules n).isSome = true := by decide

/-- Claim C7 witness: the `lexical` section's first entry. -/
theorem c7_no_orphan_sections_witness :
    "lexical" ∈ sectionOrder ∧ "token" ∈ sectionRules "lexical" ∧
    (rulesGet rules "token").isSome = true :=
  ⟨by decide, by decide,
    c7_no_orphan_sections "lexical" (by decide) "token" (by decide)⟩

/-- Claim C9: the render pass is deterministic in the rule-name list and
registry state — run into two containers, it appends the structurally
identical block list to each (in particular, twice into fresh containers
gives identical output). -/
theorem c9_render_deterministic (lib : Node → DiagObj)
    (names : List String) (c₁ c₂ : List RuleBlock) :
    renderRuleList lib rules c₁ names = c₁ ++ names.map (oneBlock lib rules) ∧
    renderRuleList lib rules c₂ names = c₂ ++ names.map (oneBlock lib rules) :=
  ⟨renderRuleList_eq lib rules names c₁, renderRuleList_eq lib rules names c₂⟩

/-- Claim C10: for every container and name list, `renderRuleList` appends
exactly one titled block per name, in input order — id `rule-<name>`,
heading the name — whether or not the name's factory exists, so the block
count always equals the name count. -/
theorem c10_one_block_per_name (lib : Node → DiagObj)
    (rs : List (String × Node)) (c : List RuleBlock) (names : List String) :
    renderRuleList lib rs c names = c ++ names.map (oneBlock lib rs) ∧
    (renderRuleList lib rs c names).length = c.length + names.length ∧
    ∀ n : String, (oneBlock lib rs n).id = "rule-" ++ n ∧
      (oneBlock lib rs n).heading = n := by
  refine ⟨renderRuleList_eq lib rs names c, ?_, ?_⟩
  · rw [renderRuleList_eq lib rs names c]
    simp
  · intro n
    exact ⟨oneBlock_id lib rs n, oneBlock_heading lib rs n⟩

/-- Claim C1 counterexample: on a diagram object whose `toSVG` is present
but throws while its `toString` is present and succeeds, the
first-success-wins reading predicts the markup-string output, but the code
shows the error placeholder — a present-but-throwing strategy is not
recovered by falling back to the next one. -/
theorem c1_fallback_counterexample :
    renderSvgSpec d0 = SvgOutcome.innerHTML "<svg>x</svg>" ∧
    renderSvg d0 = SvgOutcome.text "Render error: boom" ∧
    renderSvg d0 ≠ renderSvgSpec d0 :=
  ⟨rfl, rfl, by decide⟩

/-- Claim C1 (amended): the render step attempts only the FIRST AVAILABLE
strategy — `toSVG` when present (string → markup injection, DOM node →
append, other value → fixed notice), else `toString`, else `addTo`; if the
attempted strategy throws, or none is available, a visible error
placeholder replaces the diagram for that rule; and the pass over the
remaining rules continues unaborted (one block per requested name). -/
theorem c1_first_available_strategy (d : DiagObj) :
    (∀ s, d.toSVG = some (Except.ok (JSValue.str s)) →
      renderSvg d = SvgOutcome.innerHTML s) ∧
    (d.toSVG = some (Except.ok JSValue.domNode) →
      renderSvg d = SvgOutcome.appendedNode) ∧
    (d.toSVG = some (Except.ok JSValue.other) →
      renderSvg d = SvgOutcome.text "toSVG() returned an unexpected value.") ∧
    (∀ e, d.toSVG = some (Except.error e) →
      renderSvg d = SvgOutcome.text ("Render error: " ++ e.message)) ∧
    (∀ s, d.toSVG = none → d.toString = some (Except.ok s) →
      renderSvg d = SvgOutcome.innerHTML s) ∧
    (∀ e, d.toSVG = none → d.toString = some (Except.error e) →
      renderSvg d = SvgOutcome.text ("Render error: " ++ e.message)) ∧
    (d.toSVG = none → d.toString = none → d.addTo = some (Except.ok ()) →
      renderSvg d = SvgOutcome.attached) ∧
    (∀ e, d.toSVG = none → d.toString = none →
      d.addTo = some (Except.error e) →
      renderSvg d = SvgOutcome.text ("Render error: " ++ e.message)) ∧
    (d.toSVG = none → d.toString = none → d.addTo = none →
      renderSvg d = SvgOutcome.text
        "Diagram object does not support toSVG/toString/addTo in this build.") ∧
    (∀ (lib : Node → DiagObj) (c : List RuleBlock) (names : List String),
      (renderRuleList lib rules c names).length = c.length + names.length) := by
  obtain ⟨sv, ts, ad⟩ := d
  refine ⟨?_, ?_, ?_, ?_, ?_, ?_, ?_, ?_, ?_, ?_⟩
  · intro s h; subst h; rfl
  · intro h; subst h; rfl
  · intro h; subst h; rfl
  · intro e h; subst h; rfl
  · intro s h h2; subst h; subst h2; rfl
  · intro e h h2; subst h; subst h2; rfl
  · intro h h2 h3; subst h; subst h2; subst h3; rfl
  · intro e h h2 h3; subst h; subst h2; subst h3; rfl
  · intro h h2 h3; subst h; subst h2; subst h3; rfl
  · intro lib c names
    rw [renderRuleList_eq lib rules names c]
    simp

/-- Claim C1 (amended) witness: the throwing-`toSVG` object ends in the
error placeholder. -/
theorem c1_first_available_strategy_witness :
    renderSvg d0 = SvgOutcome.text ("Render error: " ++ "boom") :=
  (c1_first_available_strategy d0).2.2.2.1
    { isTypeError := false, message := "boom" } rfl

/-- Claim C2: the `callOrNew` shim succeeds whether the export is a plain
factory (the call succeeds) or a class constructor (the call throws the
characteristic `TypeError` and instantiation is retried); any failure
other than the new-vs-call mismatch propagates to the caller unchanged. -/
theorem c2_call_or_new (c : CtorBehavior) :
    (∀ v, c.call = Except.ok v → callOrNew c = Except.ok v) ∧
    (∀ e v, c.call = Except.error e → e.isTypeError = true →
      strContains e.message withoutNewPat = true →
      c.construct = Except.ok v → callOrNew c = Except.ok v) ∧
    (∀ e, c.call = Except.error e → e.isTypeError = true →
      strContains e.message withoutNewPat = true →
      callOrNew c = c.construct) ∧
    (∀ e, c.call = Except.error e →
      ¬(e.isTypeError = true ∧ strContains e.message withoutNewPat = true) →
      callOrNew c = Except.error e) := by
  refine ⟨?_, ?_, ?_, ?_⟩
  · intro v h; simp [callOrNew, h]
  · intro e v h h1 h2 h3; simp [callOrNew, h, h1, h2, h3]
  · intro e h h1 h2; simp [callOrNew, h, h1, h2]
  · intro e h hn
    have hb : ¬((e.isTypeError && strContains e.message withoutNewPat) = true) := by
      simpa [Bool.and_eq_true] using hn
    simp [callOrNew, h, hb]

/-- Claim C2 witness: a class-constructor-style export is instantiated
successfully by the shim. -/
theorem c2_call_or_new_witness : callOrNew ctor0 = Except.ok JSValue.domNode :=
  (c2_call_or_new ctor0).2.1
    { isTypeError := true,
      message := "Class constructor Diagram cannot be invoked without \x27new\x27" }
    JSValue.domNode rfl rfl (by decide) rfl

/-- Claim C4: for every non-terminal reference in any registered factory's
description, either the referenced name is itself registered, or rendering
the containing rule still mounts exactly its one visible block — whose
description contains that reference — without any failure: no reference
ever aborts the pass. -/
theorem c4_nonterminal_references (p : String × Node) (hp : p ∈ rules)
    (r : String) (hr : r ∈ ntRefs p.2) :
    (rulesGet rules r).isSome = true ∨
    (∀ (lib : Node → DiagObj) (c : List RuleBlock),
      renderRuleList lib rules c [p.1] =
        c ++ [⟨"rule-" ++ p.1, p.1, p.2, renderSvg (lib p.2)⟩] ∧
      Sym.nt r ∈ leaves p.2) := by
  right
  intro lib c
  constructor
  · have hget := rulesGet_of_mem rules_keys_nodup hp
    have h := renderRuleList_eq lib rules [p.1] c
    rw [h]
    simp [oneBlock, hget]
  · exact ntRefs_iff.mp hr

/-- Claim C4 witness: the registered `token` rule references the
unregistered name `keyword`, and its block still mounts. -/
theorem c4_nonterminal_references_witness :
    ("token", Diagram [
      Choice 0 [
        NT "keyword",
        NT "identifier",
        NT "constant",
        NT "string-literal",
        NT "punctuator"]]) ∈ rules ∧
    "keyword" ∈ ntRefs (Diagram [
      Choice 0 [
        NT "keyword",
        NT "identifier",
        NT "constant",
        NT "string-literal",
        NT "punctuator"]]) ∧
    ((rulesGet rules "keyword").isSome = true ∨
      (∀ (lib : Node → DiagObj) (c : List RuleBlock),
        renderRuleList lib rules c ["token"] =
          c ++ [⟨"rule-" ++ "token", "token",
            Diagram [
              Choice 0 [
                NT "keyword",
                NT "identifier",
                NT "constant",
                NT "string-literal",
                NT "punctuator"]],
            renderSvg (lib (Diagram [
              Choice 0 [
                NT "keyword",
                NT "identifier",
                NT "constant",
                NT "string-literal",
                NT "punctuator"]]))⟩] ∧
        Sym.nt "keyword" ∈ leaves (Diagram [
          Choice 0 [
            NT "keyword",
            NT "identifier",
            NT "constant",
            NT "string-literal",
            NT "punctuator"]]))) := by
  refine ⟨?_, by decide, ?_⟩
  · unfold rules
    exact List.mem_cons_self _ _
  · exact c4_nonterminal_references
      ("token", Diagram [
        Choice 0 [
          NT "keyword",
          NT "identifier",
          NT "constant",
          NT "string-literal",
          NT "punctuator"]])
      (by unfold rules; exact List.mem_cons_self _ _)
      "keyword" (by decide)

/-- Claim C8: filtering keeps exactly the names whose lowercased form
contains the lowercased (trimmed) query as a substring, as a subsequence of
the original list — so relative order is preserved; with the query
`declarator` this is exactly the case-insensitive substring subset. -/
theorem c8_filter_names (query : String) (names : List String) :
    (filterNames query names).Sublist names ∧
    ∀ n, n ∈ filterNames query names ↔
      n ∈ names ∧ strContains n.toLower query.trim.toLower = true := by
  unfold filterNames
  by_cases h : query.trim.toLower = ""
  · rw [h]
    simp only [if_pos rfl]
    refine ⟨List.Sublist.refl names, ?_⟩
    intro n
    simp [strContains_empty]
  · rw [if_neg h]
    refine ⟨List.filter_sublist names, ?_⟩
    intro n
    simp [List.mem_filter]

end C23
